import Mathlib

/-!
Verification development for `src/research/test_gpus.py` of the `iga`
repository: a micro-benchmark that allocates large constant `float32`
arrays, applies numba-vectorized elementwise kernels (`vectorAdd`,
`vectorMultiply`), times each kernel window with `timeit.default_timer`,
and prints boundary slices of the results plus the elapsed seconds.

Modelling conventions.
`float32` scalars are embedded as exact rationals (`F32 := ℚ`): every
arithmetic step this program performs is on values (1.0, 1.0 + 1.0 = 2.0,
1.0 * 1.0 = 1.0) that IEEE-754 binary32 represents exactly and computes
without rounding, so exact rational arithmetic and binary32 arithmetic
coincide on every value the program ever produces.  numpy arrays are
embedded as `List F32`; `np.ones` / `np.zeros` as `List.replicate`.
numba's `@vectorize` lifts a scalar kernel elementwise over arrays, which
is `List.zipWith`.  The wall-clock timer is a parameter
`clock : Nat → ℚ`: the k-th call of `timer()` made by `main` returns
`clock k` (there are four calls, indexed 0..3 in source order).  `main`
is embedded as a pure function producing the final values of all its
array variables, the two computed durations, the printed lines, and a
trace of the observable steps in program order.
-/

namespace TestGpus

/-- A `float32` scalar, modelled as an exact rational (see the header:
all arithmetic this program performs is exact in binary32). -/
abbrev F32 := ℚ

/-- Scalar body of the numba-vectorized kernel `vectorAdd` (lines 5-7 of
`src/research/test_gpus.py`): `return a + b`. -/
def vectorAdd (a b : F32) : F32 := a + b

/-- Scalar body of the numba-vectorized kernel `vectorMultiply`
(lines 10-12): `return a * b`. -/
def vectorMultiply (a b : F32) : F32 := a * b

/-- numba's `@vectorize` decoration: the scalar kernel `f` is applied
independently at each index pair of the two input arrays, producing a
fresh output array.  Polymorphic in the scalar type so that the
elementwise-application law holds for the scalar operation as such. -/
def npVectorize {α : Type} (f : α → α → α) (A B : List α) : List α :=
  List.zipWith f A B

/-- `np.ones(N, dtype=np.float32)`: an array of `N` ones. -/
def npOnes (N : Nat) : List F32 := List.replicate N 1

/-- `np.zeros(N, dtype=np.float32)`: an array of `N` zeros. -/
def npZeros (N : Nat) : List F32 := List.replicate N 0

/-- One printed line of `main`.  `sliceHead nm vs` stands for the text
`nm + "[:5] = " + str(vs)` (`vs` the first five elements), `sliceTail`
for the `[-5:]` line (`vs` the last five elements), and
`timing k secs` for the text `k + " took %f seconds"` with `secs`
interpolated for `%f`. -/
inductive Line where
  | sliceHead (name : String) (values : List F32)
  | sliceTail (name : String) (values : List F32)
  | timing (kernelName : String) (seconds : ℚ)
deriving DecidableEq

/-- One observable step of `main`, recorded in program order:
array allocation (with the allocated contents), a call to `timer()`
(`timerRead k` is the k-th such call), invocation of a vectorized
kernel, or a printed line. -/
inductive Event where
  | alloc (name : String) (values : List F32)
  | timerRead (index : Nat)
  | kernelCall (name : String)
  | printLine (line : Line)
deriving DecidableEq

/-- Recognizer: is this event the allocation of the array named `nm`? -/
def Event.isAlloc (nm : String) : Event → Bool
  | .alloc n _ => n = nm
  | _ => false

/-- Recognizer: is this event the `k`-th call of `timer()`? -/
def Event.isTimerRead (k : Nat) : Event → Bool
  | .timerRead j => j = k
  | _ => false

/-- Result of running `main`: final values of the six array variables,
the two reported durations, the printed lines, and the full trace of
observable steps in program order. -/
structure MainState where
  A : List F32
  B : List F32
  C : List F32
  E : List F32
  F : List F32
  G : List F32
  vector_add_time : ℚ
  vector_multiply_time : ℚ
  lines : List Line
  trace : List Event
deriving DecidableEq

/-- `main` of `src/research/test_gpus.py` (lines 14-40), generalized
over the array size `N` (the source fixes `N = 32000000` at line 15; see
`main` below) and over the timer `clock`.  The bindings appear in source
order: allocate `A`, `B`, `C` (lines 16-18), read the timer (line 20),
run `vectorAdd` rebinding `C` (line 21), read the timer and subtract
(line 22), print three lines (lines 24-27); then read the timer
(line 29), allocate `E`, `F`, `G` (lines 31-33), run `vectorMultiply`
rebinding `G` (line 34), read the timer and subtract (line 36), print
three lines (lines 38-40). -/
def mainN (N : Nat) (clock : Nat → ℚ) : MainState :=
  let A := npOnes N
  let B := npOnes N
  let C0 := npZeros N
  let startAdd := clock 0
  let C := npVectorize vectorAdd A B
  let vector_add_time := clock 1 - startAdd
  let addLines : List Line :=
    [Line.sliceHead "C" (C.take 5),
     Line.sliceTail "C" (C.drop (C.length - 5)),
     Line.timing "VectorAdd" vector_add_time]
  let startMul := clock 2
  let E := npOnes N
  let F := npOnes N
  let G0 := npZeros N
  let G := npVectorize vectorMultiply E F
  let vector_multiply_time := clock 3 - startMul
  let mulLines : List Line :=
    [Line.sliceHead "G" (G.take 5),
     Line.sliceTail "G" (G.drop (G.length - 5)),
     Line.timing "VectorMultiply" vector_multiply_time]
  { A := A, B := B, C := C, E := E, F := F, G := G
    vector_add_time := vector_add_time
    vector_multiply_time := vector_multiply_time
    lines := addLines ++ mulLines
    trace :=
      [Event.alloc "A" A, Event.alloc "B" B, Event.alloc "C" C0,
       Event.timerRead 0, Event.kernelCall "vectorAdd", Event.timerRead 1]
      ++ addLines.map Event.printLine
      ++ [Event.timerRead 2, Event.alloc "E" E, Event.alloc "F" F,
          Event.alloc "G" G0, Event.kernelCall "vectorMultiply",
          Event.timerRead 3]
      ++ mulLines.map Event.printLine }

/-- `main` as the source runs it: `N = 32000000` (line 15). -/
def main (clock : Nat → ℚ) : MainState := mainN 32000000 clock

/-- Outcome of the multiply trial taken on its own (lines 29-36 and
38-40), as a function of only the array size and its own two timer
readings: fresh arrays `E`, `F` of ones, output `G`, elapsed time, and
its three printed lines. -/
structure TrialResult where
  output : List F32
  elapsed : ℚ
  lines : List Line
deriving DecidableEq

/-- The multiply trial of `main`, standalone (lines 29-40): it allocates
its own input arrays `E` and `F` and touches nothing produced by the add
trial. -/
def multiplyTrial (N : Nat) (startRead stopRead : ℚ) : TrialResult :=
  let E := npOnes N
  let F := npOnes N
  let G := npVectorize vectorMultiply E F
  let t := stopRead - startRead
  { output := G
    elapsed := t
    lines :=
      [Line.sliceHead "G" (G.take 5),
       Line.sliceTail "G" (G.drop (G.length - 5)),
       Line.timing "VectorMultiply" t] }

/-! ### Shared helper lemmas -/

/-- Zipping two constant arrays of equal length gives a constant array. -/
lemma zipWith_replicate_eq {α : Type} (f : α → α → α) (n : Nat) (a b : α) :
    List.zipWith f (List.replicate n a) (List.replicate n b) =
      List.replicate n (f a b) := by
  induction n with
  | zero => rfl
  | succ k ih => simp [List.replicate_succ, List.zipWith, ih]

/-- The add trial's output array is `N` copies of `2.0`. -/
lemma mainN_C_eq (N : Nat) (clock : Nat → ℚ) :
    (mainN N clock).C = List.replicate N (2 : F32) := by
  show npVectorize vectorAdd (npOnes N) (npOnes N) = _
  rw [npVectorize, npOnes, zipWith_replicate_eq]
  norm_num [vectorAdd]

/-- The multiply trial's output array is `N` copies of `1.0`. -/
lemma mainN_G_eq (N : Nat) (clock : Nat → ℚ) :
    (mainN N clock).G = List.replicate N (1 : F32) := by
  show npVectorize vectorMultiply (npOnes N) (npOnes N) = _
  rw [npVectorize, npOnes, zipWith_replicate_eq]
  norm_num [vectorMultiply]

/-- Reading an in-bounds index of a constant array. -/
lemma getElem?_replicate_of_lt {α : Type} (n i : Nat) (a : α) (h : i < n) :
    (List.replicate n a)[i]? = some a := by
  rw [List.getElem?_replicate]
  simp [h]

/-! ### Claim theorems -/

/-- C1: for every `N > 0` (here: every in-bounds index `i < N`, which
forces `N > 0`) and all-ones `float32` inputs, the add trial's output
array `C` holds `2.0` at every index in `[0, N)` and the multiply
trial's output array `G` holds `1.0` at every index in `[0, N)`. -/
theorem constant_inputs_add_two_multiply_one
    (N : Nat) (clock : Nat → ℚ) (i : Nat) (h : i < N) :
    (mainN N clock).C[i]? = some 2 ∧ (mainN N clock).G[i]? = some 1 := by
  rw [mainN_C_eq, mainN_G_eq]
  exact ⟨getElem?_replicate_of_lt N i 2 h, getElem?_replicate_of_lt N i 1 h⟩

/-- C1 witness: at `N = 3`, index `1`, the add trial yields `2.0` and
the multiply trial yields `1.0`. -/
theorem constant_inputs_add_two_multiply_one_witness :
    (mainN 3 (fun k => (k : ℚ))).C[1]? = some 2 ∧
      (mainN 3 (fun k => (k : ℚ))).G[1]? = some 1 :=
  constant_inputs_add_two_multiply_one 3 (fun k => (k : ℚ)) 1 (by decide)

/-- C3: for every pair of equal-length input arrays (not only constant
ones), each vectorized kernel returns an array of the same length whose
entry at every in-bounds index `i` is the scalar kernel applied to
`A[i]` and `B[i]` — elementwise application holds for arbitrary inputs,
hence in particular for the IEEE binary32 add and multiply performed by
the scalar bodies. -/
theorem kernel_elementwise (A B : List F32) (hlen : A.length = B.length) :
    (npVectorize vectorAdd A B).length = A.length ∧
    (npVectorize vectorMultiply A B).length = A.length ∧
    (∀ i, (hA : i < A.length) → (hB : i < B.length) →
      (npVectorize vectorAdd A B)[i]? =
        some (vectorAdd (A.get ⟨i, hA⟩) (B.get ⟨i, hB⟩))) ∧
    (∀ i, (hA : i < A.length) → (hB : i < B.length) →
      (npVectorize vectorMultiply A B)[i]? =
        some (vectorMultiply (A.get ⟨i, hA⟩) (B.get ⟨i, hB⟩))) := by
  refine ⟨?_, ?_, ?_, ?_⟩
  · rw [npVectorize, List.length_zipWith, hlen, Nat.min_self]
  · rw [npVectorize, List.length_zipWith, hlen, Nat.min_self]
  · intro i hA hB
    have hz : i < (List.zipWith vectorAdd A B).length := by
      rw [List.length_zipWith]; omega
    rw [npVectorize, List.getElem?_eq_getElem hz, List.getElem_zipWith]
    simp [List.get_eq_getElem]
  · intro i hA hB
    have hz : i < (List.zipWith vectorMultiply A B).length := by
      rw [List.length_zipWith]; omega
    rw [npVectorize, List.getElem?_eq_getElem hz, List.getElem_zipWith]
    simp [List.get_eq_getElem]

/-- C3 witness: on the non-constant inputs `A = [1, 2]`, `B = [3, 4]`,
the add kernel has length 2 and yields `1 + 3 = 4` at index 0, and the
multiply kernel yields `2 * 4 = 8` at index 1. -/
theorem kernel_elementwise_witness :
    (npVectorize vectorAdd [(1 : F32), 2] [3, 4]).length = 2 ∧
    (npVectorize vectorAdd [(1 : F32), 2] [3, 4])[0]? = some 4 ∧
    (npVectorize vectorMultiply [(1 : F32), 2] [3, 4])[1]? = some 8 := by
  have h := kernel_elementwise [(1 : F32), 2] [3, 4] rfl
  refine ⟨h.1, ?_, ?_⟩
  · have := h.2.2.1 0 (by decide) (by decide)
    norm_num [vectorAdd] at this
    simpa using this
  · have := h.2.2.2 1 (by decide) (by decide)
    norm_num [vectorMultiply] at this
    simpa using this

/-- C5: the kernels and the trials are deterministic — two runs of
`main` with the same size but arbitrary (possibly different) timers
produce identical output arrays element for element, identical inputs,
and identical printed slices; only the measured durations can differ
with the timer. -/
theorem runs_deterministic (N : Nat) (clock clock' : Nat → ℚ) :
    (mainN N clock).C = (mainN N clock').C ∧
    (mainN N clock).G = (mainN N clock').G ∧
    (mainN N clock).A = (mainN N clock').A ∧
    (mainN N clock).B = (mainN N clock').B ∧
    (mainN N clock).E = (mainN N clock').E ∧
    (mainN N clock).F = (mainN N clock').F :=
  ⟨rfl, rfl, rfl, rfl, rfl, rfl⟩

/-- C6: the multiply trial is fully independent of the add trial — its
inputs `E`, `F` are freshly allocated all-ones arrays, and its output
`G`, reported duration, and printed lines coincide with running the
multiply trial standalone from only the size and its own two timer
readings (reads 2 and 3), with no dependence on `A`, `B`, `C` or the
add-trial duration. -/
theorem multiply_trial_independent (N : Nat) (clock : Nat → ℚ) :
    (mainN N clock).E = npOnes N ∧
    (mainN N clock).F = npOnes N ∧
    (mainN N clock).G = (multiplyTrial N (clock 2) (clock 3)).output ∧
    (mainN N clock).vector_multiply_time =
      (multiplyTrial N (clock 2) (clock 3)).elapsed ∧
    (mainN N clock).lines.drop 3 = (multiplyTrial N (clock 2) (clock 3)).lines ∧
    (mainN N clock).G = npVectorize vectorMultiply (npOnes N) (npOnes N) :=
  ⟨rfl, rfl, rfl, rfl, rfl, rfl⟩

/-- C2 counterexample: in a concrete run (`N = 2`, timer readings
0, 1, 2, 3) the multiply trial's timer-start read (`timer()` call 2,
line 29) is the trace step at position 9, while the allocations of its
input arrays `E` and `F` (lines 31-32) are the steps at positions 10
and 11 — and no earlier step allocates `E`.  So for the multiply trial
the input arrays are allocated AFTER the timer starts, refuting the
claim that allocation precedes the timer start for each of the two
trials. -/
theorem allocation_before_timer_counterexample :
    (mainN 2 (fun k => (k : ℚ))).trace.findIdx (Event.isTimerRead 2) = 9 ∧
    (mainN 2 (fun k => (k : ℚ))).trace.findIdx (Event.isAlloc "E") = 10 ∧
    (mainN 2 (fun k => (k : ℚ))).trace.findIdx (Event.isAlloc "F") = 11 ∧
    (mainN 2 (fun k => (k : ℚ))).trace[9]? = some (Event.timerRead 2) ∧
    (mainN 2 (fun k => (k : ℚ))).trace[10]? =
      some (Event.alloc "E" (npOnes 2)) := by
  refine ⟨?_, ?_, ?_, rfl, rfl⟩ <;> rfl

/-- C2 (amended): for the ADD trial, allocation of the input arrays
`A`, `B` (and the initial `C`) occurs before the timer-start read, so
its reported duration `clock 1 - clock 0` covers only the kernel
execution; for the MULTIPLY trial, the timer-start read (call 2)
precedes the allocations of `E`, `F`, `G`, so its reported duration
`clock 3 - clock 2` includes the allocation of its arrays as well as
the kernel execution. -/
theorem add_timed_after_alloc_multiply_timed_before_alloc
    (N : Nat) (clock : Nat → ℚ) :
    (mainN N clock).trace.take 4 =
      [Event.alloc "A" (npOnes N), Event.alloc "B" (npOnes N),
       Event.alloc "C" (npZeros N), Event.timerRead 0] ∧
    (mainN N clock).vector_add_time = clock 1 - clock 0 ∧
    ((mainN N clock).trace.drop 9).take 4 =
      [Event.timerRead 2, Event.alloc "E" (npOnes N),
       Event.alloc "F" (npOnes N), Event.alloc "G" (npZeros N)] ∧
    (mainN N clock).vector_multiply_time = clock 3 - clock 2 :=
  ⟨rfl, rfl, rfl, rfl⟩

/-- C7: under the assumption that the wall-clock timer is monotone
non-decreasing, both reported durations (timer-stop minus timer-start)
are `>= 0`; as rationals they are finite by construction. -/
theorem durations_nonneg (N : Nat) (clock : Nat → ℚ)
    (hmono : ∀ i j : Nat, i ≤ j → clock i ≤ clock j) :
    0 ≤ (mainN N clock).vector_add_time ∧
    0 ≤ (mainN N clock).vector_multiply_time := by
  constructor
  · exact sub_nonneg.mpr (hmono 0 1 (by omega))
  · exact sub_nonneg.mpr (hmono 2 3 (by omega))

/-- C7 witness: with the monotone timer `clock k = k` and `N = 1`, both
reported durations are non-negative. -/
theorem durations_nonneg_witness :
    0 ≤ (mainN 1 (fun k => (k : ℚ))).vector_add_time ∧
    0 ≤ (mainN 1 (fun k => (k : ℚ))).vector_multiply_time :=
  durations_nonneg 1 (fun k => (k : ℚ))
    (fun _ _ h => Nat.cast_le.mpr h)

/-- C8: at the boundary sizes, `N = 1` produces the single-element
correct results `[2.0]` (add) and `[1.0]` (multiply), and `N = 0` does
not fail: both kernels consistently return an empty array — the code
exhibits the return-empty-array branch of the claim, for any timer. -/
theorem boundary_sizes (clock : Nat → ℚ) :
    ((mainN 1 clock).C = [2] ∧ (mainN 1 clock).G = [1]) ∧
    ((mainN 0 clock).C = [] ∧ (mainN 0 clock).G = []) := by
  refine ⟨⟨?_, ?_⟩, rfl, rfl⟩
  · rw [mainN_C_eq]; rfl
  · rw [mainN_G_eq]; rfl

/-- C9 counterexample: in a concrete run (`N = 2`, timer readings
0, 1, 2, 3) the add trial prints THREE lines — the first-5 slice, the
last-5 slice, and the timing line — not two: the printed output before
the multiply trial starts is a 3-element list, and in total `main`
prints 6 lines, refuting the claim of exactly two lines per trial. -/
theorem two_lines_per_trial_counterexample :
    (mainN 2 (fun k => (k : ℚ))).lines.take 3 =
      [Line.sliceHead "C" [2, 2], Line.sliceTail "C" [2, 2],
       Line.timing "VectorAdd" 1] ∧
    (mainN 2 (fun k => (k : ℚ))).lines.length = 6 := by
  constructor
  · show [Line.sliceHead "C" _, Line.sliceTail "C" _, Line.timing "VectorAdd" _] = _
    norm_num [npVectorize, npOnes, List.zipWith, vectorAdd]
  · rfl

/-- C9 (amended): each trial prints exactly THREE lines of text — one
with the first 5 result values, one with the last 5 result values, and
one with the elapsed seconds (`"VectorAdd took %f seconds"` /
`"VectorMultiply took %f seconds"`) — so `main` prints this six-line
sequence in order. -/
theorem three_lines_per_trial (N : Nat) (clock : Nat → ℚ) :
    (mainN N clock).lines =
      [Line.sliceHead "C"
         ((npVectorize vectorAdd (npOnes N) (npOnes N)).take 5),
       Line.sliceTail "C"
         ((npVectorize vectorAdd (npOnes N) (npOnes N)).drop
           ((npVectorize vectorAdd (npOnes N) (npOnes N)).length - 5)),
       Line.timing "VectorAdd" (clock 1 - clock 0),
       Line.sliceHead "G"
         ((npVectorize vectorMultiply (npOnes N) (npOnes N)).take 5),
       Line.sliceTail "G"
         ((npVectorize vectorMultiply (npOnes N) (npOnes N)).drop
           ((npVectorize vectorMultiply (npOnes N) (npOnes N)).length - 5)),
       Line.timing "VectorMultiply" (clock 3 - clock 2)] :=
  rfl

/-- C10: the kernels leave their inputs unmodified and their results
are fresh — after `main` runs, `A`, `B`, `E`, `F` still hold `1.0` at
every index; the zero arrays initially bound to `C` (trace step 2) and
`G` (trace step 12) keep the value `np.zeros(N)` at their allocation
record, and the final `C` and `G` are the kernels' fresh results, which
differ from those zero arrays (the names were rebound, the zero arrays
were never written). -/
theorem inputs_unmodified_outputs_fresh
    (N : Nat) (clock : Nat → ℚ) (i : Nat) (h : i < N) :
    (mainN N clock).A[i]? = some 1 ∧
    (mainN N clock).B[i]? = some 1 ∧
    (mainN N clock).E[i]? = some 1 ∧
    (mainN N clock).F[i]? = some 1 ∧
    (mainN N clock).trace[2]? = some (Event.alloc "C" (npZeros N)) ∧
    (mainN N clock).trace[12]? = some (Event.alloc "G" (npZeros N)) ∧
    (mainN N clock).C ≠ npZeros N ∧
    (mainN N clock).G ≠ npZeros N := by
  have hones : ∀ j : Nat, j < N → (npOnes N)[j]? = some 1 := fun j hj =>
    getElem?_replicate_of_lt N j 1 hj
  refine ⟨hones i h, hones i h, hones i h, hones i h, rfl, rfl, ?_, ?_⟩
  · intro he
    rw [mainN_C_eq] at he
    have h2 := congrArg (fun l => l[i]?) he
    rw [npZeros] at h2
    simp only [getElem?_replicate_of_lt N i _ h] at h2
    exact absurd (Option.some.inj h2) (by norm_num)
  · intro he
    rw [mainN_G_eq] at he
    have h2 := congrArg (fun l => l[i]?) he
    rw [npZeros] at h2
    simp only [getElem?_replicate_of_lt N i _ h] at h2
    exact absurd (Option.some.inj h2) (by norm_num)

/-- C10 witness: at `N = 2`, index `0`, with the timer `clock k = k`,
all four input arrays hold `1.0`, the zero allocations are recorded,
and the final `C` and `G` differ from the zero arrays. -/
theorem inputs_unmodified_outputs_fresh_witness :
    (mainN 2 (fun k => (k : ℚ))).A[0]? = some 1 ∧
    (mainN 2 (fun k => (k : ℚ))).B[0]? = some 1 ∧
    (mainN 2 (fun k => (k : ℚ))).E[0]? = some 1 ∧
    (mainN 2 (fun k => (k : ℚ))).F[0]? = some 1 ∧
    (mainN 2 (fun k => (k : ℚ))).trace[2]? =
      some (Event.alloc "C" (npZeros 2)) ∧
    (mainN 2 (fun k => (k : ℚ))).trace[12]? =
      some (Event.alloc "G" (npZeros 2)) ∧
    (mainN 2 (fun k => (k : ℚ))).C ≠ npZeros 2 ∧
    (mainN 2 (fun k => (k : ℚ))).G ≠ npZeros 2 :=
  inputs_unmodified_outputs_fresh 2 (fun k => (k : ℚ)) 0 (by decide)

end TestGpus
